import Mathlib

/-!
# QKART backend — cart service verification

A shallow embedding of the cart service (`src/unnamed/part_000`, the
`cart.service` module) and the parts of `src/src/models/user.model.js`
it relies on, together with proofs about the embedded operations.

Modelling choices:
* Mongo documents become Lean structures; the cart store and product
  store become `List Cart` / `List Product`, with `findOne`/`findById`
  as `List.find?` and `create`/`save` as an upsert on the list.
* JS numbers used for money and quantities are modelled as exact
  integers (`Int`): every claim under scrutiny involves only exact
  addition, multiplication, subtraction and order comparison, on which
  JS numbers of these magnitudes and `Int` agree.
* Each `async` service function resolves or rejects; we model its
  outcome as `Except ApiError α`, paired with the cart store (and for
  `checkout` also the user document) as left after the call, since
  `Cart.create` persists a document even when the call later throws.
* `config.default_address` is not under `src/`; it is modelled from the
  spec as an opaque sentinel string constant.
-/

/-- HTTP status carried by an `ApiError` (`httpStatus.NOT_FOUND` etc.)
together with the error message. -/
structure ApiError where
  status : Nat
  message : String
deriving DecidableEq, Repr

/-- `httpStatus.NOT_FOUND`. -/
def NOT_FOUND : Nat := 404

/-- `httpStatus.BAD_REQUEST`. -/
def BAD_REQUEST : Nat := 400

/-- `httpStatus.INTERNAL_SERVER_ERROR`. -/
def INTERNAL_SERVER_ERROR : Nat := 500

/-- Modelled from the spec: `config.default_address`, the configured
"no address set" sentinel (the config file is not under `src/`; §3 and
the glossary describe it as a fixed configured placeholder string). -/
def default_address : String := "ADDRESS_NOT_SET"

/-- A product document: `_id` (modelled as `id`) and `cost`
(a JS number, modelled as an exact integer). Other descriptive fields
play no role in the cart service. -/
structure Product where
  id : String
  cost : Int
deriving DecidableEq, Repr

/-- A line item of a cart: `{product, quantity}`. -/
structure CartItem where
  product : Product
  quantity : Int
deriving DecidableEq, Repr

/-- A cart document: keyed by `email`, holding the ordered `cartItems`. -/
structure Cart where
  email : String
  cartItems : List CartItem
deriving DecidableEq, Repr

/-- The fields of a user document that the cart service reads or
writes: `email`, `walletMoney`, `address`. -/
structure User where
  email : String
  walletMoney : Int
  address : String
deriving DecidableEq, Repr

/-- `user.model.js` `hasSetNonDefaultAddress`:
`user.address !== config.default_address`. -/
def User.hasSetNonDefaultAddress (user : User) : Bool :=
  user.address != default_address

/-- `Cart.findOne({ email })`: the cart document for the email, if any. -/
def Cart.findOne (carts : List Cart) (email : String) : Option Cart :=
  carts.find? (fun c => c.email == email)

/-- `Product.findById(productId)` (also `Product.findOne({_id})`). -/
def Product.findById (products : List Product) (productId : String) :
    Option Product :=
  products.find? (fun p => p.id == productId)

/-- Persisting a cart document (`Cart.create` / `cart.save()`): replace
the document with that email if present, otherwise insert it. -/
def saveCart (carts : List Cart) (cart : Cart) : List Cart :=
  if carts.any (fun c => c.email == cart.email) then
    carts.map (fun c => if c.email == cart.email then cart else c)
  else
    carts ++ [cart]

/-- The resolved value of `getCartByUser`: the source's `catch` block
returns the caught error object, so the promise can resolve with either
a cart or an `ApiError` value. -/
inductive GetCartResult where
  | cart : Cart → GetCartResult
  | err : ApiError → GetCartResult
deriving DecidableEq, Repr

/-- `getCartByUser(user)`: looks the cart up; if absent it throws a 404
`ApiError`, but the surrounding `try/catch` catches that error and
`return`s it, so the function always resolves (never rejects). -/
def getCartByUser (carts : List Cart) (user : User) :
    Except ApiError GetCartResult :=
  Except.ok
    (match Cart.findOne carts user.email with
     | some cart => GetCartResult.cart cart
     | none => GetCartResult.err ⟨NOT_FOUND, "User does not have a cart"⟩)

/-- `addProductToCart(user, productId, quantity)`. Returns the outcome
(resolved cart or thrown `ApiError`) together with the cart store after
the call; note `Cart.create` persists an empty cart before the
duplicate / unknown-product checks run. -/
def addProductToCart (products : List Product) (carts : List Cart)
    (user : User) (productId : String) (quantity : Int) :
    Except ApiError Cart × List Cart :=
  let product := Product.findById products productId
  let found := Cart.findOne carts user.email
  let cart : Cart :=
    match found with
    | some c => c
    | none => ⟨user.email, []⟩
  let carts1 :=
    match found with
    | some _ => carts
    | none => saveCart carts ⟨user.email, []⟩
  let exist := cart.cartItems.any (fun obj => obj.product.id == productId)
  if exist then
    (Except.error ⟨BAD_REQUEST,
      "Product already in cart. Use the cart sidebar to update or remove product from cart"⟩,
     carts1)
  else
    match product with
    | none =>
        (Except.error ⟨BAD_REQUEST, "Product doesn't exist in database"⟩,
         carts1)
    | some p =>
        let cart2 : Cart :=
          { cart with cartItems := cart.cartItems ++ [⟨p, quantity⟩] }
        (Except.ok cart2, saveCart carts1 cart2)

/-- `updateProductInCart(user, productId, quantity)`. The final
`forEach` sets `obj.quantity = quantity` on every line item whose
product id matches, modelled as a `map`. -/
def updateProductInCart (products : List Product) (carts : List Cart)
    (user : User) (productId : String) (quantity : Int) :
    Except ApiError Cart × List Cart :=
  match Cart.findOne carts user.email with
  | none =>
      (Except.error ⟨BAD_REQUEST,
        "User does not have a cart. Use POST to create cart and add a product"⟩,
       carts)
  | some cart =>
      match Product.findById products productId with
      | none =>
          (Except.error ⟨BAD_REQUEST, "Product doesn't exist in database"⟩,
           carts)
      | some _product =>
          if cart.cartItems.any (fun obj => obj.product.id == productId) then
            let cart2 : Cart :=
              { cart with
                cartItems := cart.cartItems.map (fun obj =>
                  if obj.product.id == productId then
                    { obj with quantity := quantity }
                  else obj) }
            (Except.ok cart2, saveCart carts cart2)
          else
            (Except.error ⟨BAD_REQUEST, "Product not in cart"⟩, carts)

/-- The `forEach((obj, index) => ...)` scan in `deleteProductFromCart`:
walks the items with their indices, recording whether a match was seen
(`exists`) and the index of the last match (`pos`). -/
def deleteScanAux (productId : String) :
    List CartItem → Nat → Bool × Nat → Bool × Nat
  | [], _, acc => acc
  | obj :: rest, idx, acc =>
      deleteScanAux productId rest (idx + 1)
        (if obj.product.id == productId then (true, idx) else acc)

/-- The `(exists, pos)` pair after the scan, starting from
`exists = false, pos = 0`. -/
def deleteScan (items : List CartItem) (productId : String) : Bool × Nat :=
  deleteScanAux productId items 0 (false, 0)

/-- `deleteProductFromCart(user, productId)`: on success it splices one
element out at `pos` (`cartItems.splice(pos, 1)`, i.e. `eraseIdx`) and
persists; it resolves with no value. -/
def deleteProductFromCart (carts : List Cart) (user : User)
    (productId : String) : Except ApiError Unit × List Cart :=
  match Cart.findOne carts user.email with
  | none =>
      (Except.error ⟨BAD_REQUEST, "User does not have a cart"⟩, carts)
  | some cart =>
      let scan := deleteScan cart.cartItems productId
      if scan.1 = false then
        (Except.error ⟨BAD_REQUEST, "Product not in cart"⟩, carts)
      else
        let cart2 : Cart :=
          { cart with cartItems := cart.cartItems.eraseIdx scan.2 }
        (Except.ok (), saveCart carts cart2)

/-- The `forEach` accumulation of
`total = total + obj.product.cost * obj.quantity` in `checkout`. -/
def cartTotal (items : List CartItem) : Int :=
  items.foldl (fun total obj => total + obj.product.cost * obj.quantity) 0

/-- `checkout(user)`: validates cart existence, non-emptiness, address
and balance, then debits the wallet, saves the user, empties the cart
and saves it. Returns the outcome, the user document and the cart store
after the call. -/
def checkout (carts : List Cart) (user : User) :
    Except ApiError Cart × User × List Cart :=
  match Cart.findOne carts user.email with
  | none => (Except.error ⟨NOT_FOUND, "Cart not found"⟩, user, carts)
  | some cart =>
      if cart.cartItems.length = 0 then
        (Except.error ⟨BAD_REQUEST, "No products in cart"⟩, user, carts)
      else if !user.hasSetNonDefaultAddress then
        (Except.error ⟨BAD_REQUEST, "No valid address"⟩, user, carts)
      else
        let walletMoney := user.walletMoney
        let total := cartTotal cart.cartItems
        let finalBalance := walletMoney - total
        if finalBalance < 0 then
          (Except.error ⟨BAD_REQUEST, "Insufficient balance"⟩, user, carts)
        else
          let user2 : User := { user with walletMoney := finalBalance }
          let cart2 : Cart := { cart with cartItems := [] }
          (Except.ok cart2, user2, saveCart carts cart2)

/-! ## Basic facts about the store primitives -/

/-- A cart found by email carries that email. -/
lemma Cart.findOne_email {carts : List Cart} {email : String} {cart : Cart}
    (h : Cart.findOne carts email = some cart) : cart.email = email := by
  simp only [Cart.findOne] at h
  have hp := List.find?_some h
  exact eq_of_beq hp

/-- A product found by id carries that id. -/
lemma Product.findById_id {products : List Product} {productId : String}
    {p : Product} (h : Product.findById products productId = some p) :
    p.id = productId := by
  simp only [Product.findById] at h
  have hp := List.find?_some h
  exact eq_of_beq hp

/-- A saved cart is a member of the store after saving. -/
lemma self_mem_saveCart (carts : List Cart) (cart : Cart) :
    cart ∈ saveCart carts cart := by
  unfold saveCart
  split
  · next hany =>
      rw [List.any_eq_true] at hany
      obtain ⟨c, hc, hbeq⟩ := hany
      rw [List.mem_map]
      exact ⟨c, hc, by simp [hbeq]⟩
  · simp

/-- Every cart in the store after a save is an original cart or the
saved one. -/
lemma mem_saveCart {carts : List Cart} {cart c' : Cart}
    (h : c' ∈ saveCart carts cart) : c' ∈ carts ∨ c' = cart := by
  unfold saveCart at h
  split at h
  · rw [List.mem_map] at h
    obtain ⟨a, ha, heq⟩ := h
    by_cases hc : (a.email == cart.email) = true
    · right
      rw [if_pos hc] at heq
      exact heq.symm
    · left
      rw [if_neg hc] at heq
      exact heq ▸ ha
  · rcases List.mem_append.mp h with h1 | h2
    · exact Or.inl h1
    · right
      simpa using h2

/-- Replacing every cart with a given email by `cart` makes `find?` on
that email return `cart`, provided some cart with that email exists. -/
lemma find?_map_replace (cart : Cart) :
    ∀ carts : List Cart, carts.any (fun c => c.email == cart.email) = true →
      List.find? (fun c => c.email == cart.email)
        (carts.map (fun c => if c.email == cart.email then cart else c)) =
        some cart
  | [], h => by simp at h
  | a :: as, h => by
      simp only [List.map_cons]
      by_cases hc : (a.email == cart.email) = true
      · rw [if_pos hc]
        exact List.find?_cons_of_pos _ (by simp)
      · rw [if_neg hc]
        rw [List.find?_cons_of_neg _ (by simpa using hc)]
        apply find?_map_replace cart as
        simpa [hc] using h

/-- Looking a cart up by its own email right after saving it finds it. -/
lemma findOne_saveCart_self (carts : List Cart) (cart : Cart) :
    Cart.findOne (saveCart carts cart) cart.email = some cart := by
  unfold saveCart Cart.findOne
  split
  · next hany => exact find?_map_replace cart carts hany
  · next hany =>
      have hnone : List.find? (fun c => c.email == cart.email) carts = none := by
        rw [List.find?_eq_none]
        intro c hc
        have := List.any_eq_false.mp (Bool.not_eq_true _ ▸ hany) c hc
        simpa using this
      rw [List.find?_append, hnone]
      simp

/-! ## Claims -/

/-- C1: the spec says that for every user without a cart document
`getCartByUser` fails with `NotFound`, the failure being reported to
the caller as the operation's error outcome. In the code the `catch`
block returns the caught `ApiError`, so the operation always resolves
successfully; at the failing input (a user with no cart) the resolved
value is the 404 error object rather than an error outcome. -/
theorem getCartByUser_returns_notFound_as_success :
    (∀ (carts : List Cart) (user : User),
        ∃ r, getCartByUser carts user = Except.ok r) ∧
    getCartByUser [] ⟨"john@qkart.com", 500, "ADDRESS_NOT_SET"⟩ =
      Except.ok (GetCartResult.err ⟨NOT_FOUND, "User does not have a cart"⟩) :=
  ⟨fun _ _ => ⟨_, rfl⟩, rfl⟩

/-- C2: for a user whose cart exists and is non-empty, whose address
differs from the default sentinel, and whose wallet covers the cart
total `sum(cost * quantity)`, checkout succeeds: it returns the
now-empty cart, the user's wallet becomes `walletMoney - total` with
the other user fields unchanged, and the persisted cart for the user
has an empty item list. -/
theorem checkout_success (carts : List Cart) (user : User) (cart : Cart)
    (hfind : Cart.findOne carts user.email = some cart)
    (hne : cart.cartItems ≠ [])
    (haddr : user.address ≠ default_address)
    (hbal : cartTotal cart.cartItems ≤ user.walletMoney) :
    (checkout carts user).1 = Except.ok ⟨user.email, []⟩ ∧
    (checkout carts user).2.1 =
      ⟨user.email, user.walletMoney - cartTotal cart.cartItems, user.address⟩ ∧
    Cart.findOne (checkout carts user).2.2 user.email =
      some ⟨user.email, []⟩ := by
  obtain ⟨ue, uw, ua⟩ := user
  obtain ⟨ce, ci⟩ := cart
  simp only at hfind hne haddr hbal
  have hemail : ce = ue := Cart.findOne_email hfind
  subst hemail
  have hlen : ¬ ci.length = 0 := by
    simpa [List.length_eq_zero] using hne
  have haddr' : User.hasSetNonDefaultAddress ⟨ce, uw, ua⟩ = true := by
    simp [User.hasSetNonDefaultAddress, bne_iff_ne]
    exact haddr
  have hnn : ¬ uw - cartTotal ci < 0 := by omega
  simp only [checkout, hfind, if_neg hlen, haddr', Bool.not_true,
    Bool.false_eq_true, if_false, if_neg hnn]
  exact ⟨trivial, trivial, findOne_saveCart_self carts ⟨ce, []⟩⟩

/-- C2 witness: the spec's concrete scenario — wallet 500, one line
item of cost 100 and quantity 3 — checks out to wallet 200 and an
empty cart. -/
theorem checkout_success_witness :
    (Cart.findOne [⟨"a@b.com", [⟨⟨"p1", 100⟩, 3⟩]⟩] "a@b.com" =
        some ⟨"a@b.com", [⟨⟨"p1", 100⟩, 3⟩]⟩ ∧
      ([⟨⟨"p1", 100⟩, 3⟩] : List CartItem) ≠ [] ∧
      "Pune" ≠ default_address ∧
      cartTotal [⟨⟨"p1", 100⟩, 3⟩] ≤ (500 : Int)) ∧
    ((checkout [⟨"a@b.com", [⟨⟨"p1", 100⟩, 3⟩]⟩] ⟨"a@b.com", 500, "Pune"⟩).1 =
        Except.ok ⟨"a@b.com", []⟩ ∧
      (checkout [⟨"a@b.com", [⟨⟨"p1", 100⟩, 3⟩]⟩] ⟨"a@b.com", 500, "Pune"⟩).2.1 =
        ⟨"a@b.com", 500 - cartTotal [⟨⟨"p1", 100⟩, 3⟩], "Pune"⟩ ∧
      Cart.findOne
        (checkout [⟨"a@b.com", [⟨⟨"p1", 100⟩, 3⟩]⟩] ⟨"a@b.com", 500, "Pune"⟩).2.2
        "a@b.com" = some ⟨"a@b.com", []⟩) :=
  ⟨⟨by decide, by decide, by decide, by decide⟩,
    checkout_success [⟨"a@b.com", [⟨⟨"p1", 100⟩, 3⟩]⟩] ⟨"a@b.com", 500, "Pune"⟩
      ⟨"a@b.com", [⟨⟨"p1", 100⟩, 3⟩]⟩ (by decide) (by decide) (by decide)
      (by decide)⟩

/-- C4: with an existing non-empty cart and a non-default address, if
`walletMoney - total < 0` then checkout fails with `InvalidInput`
("Insufficient balance") and leaves the user document and the cart
store untouched; a balance exactly equal to the total is sufficient
for success. -/
theorem checkout_insufficient_balance (carts : List Cart) (user : User)
    (cart : Cart)
    (hfind : Cart.findOne carts user.email = some cart)
    (hne : cart.cartItems ≠ [])
    (haddr : user.address ≠ default_address) :
    (user.walletMoney - cartTotal cart.cartItems < 0 →
      checkout carts user =
        (Except.error ⟨BAD_REQUEST, "Insufficient balance"⟩, user, carts)) ∧
    (user.walletMoney = cartTotal cart.cartItems →
      ∃ cart2, (checkout carts user).1 = Except.ok cart2 ∧
        cart2.cartItems = []) := by
  have hlen : ¬ cart.cartItems.length = 0 := by
    simpa [List.length_eq_zero] using hne
  have haddr' : user.hasSetNonDefaultAddress = true := by
    simp [User.hasSetNonDefaultAddress, bne_iff_ne]
    exact haddr
  constructor
  · intro hlt
    simp only [checkout, hfind, if_neg hlen, haddr', Bool.not_true,
      Bool.false_eq_true, if_false, if_pos hlt]
  · intro heq
    have hnn : ¬ user.walletMoney - cartTotal cart.cartItems < 0 := by omega
    simp only [checkout, hfind, if_neg hlen, haddr', Bool.not_true,
      Bool.false_eq_true, if_false, if_neg hnn]
    exact ⟨_, rfl, rfl⟩

/-- C4 witness: the spec's concrete scenario — wallet 100 against a
total of 300 — fails with "Insufficient balance", wallet and cart
unmodified. -/
theorem checkout_insufficient_balance_witness :
    (Cart.findOne [⟨"a@b.com", [⟨⟨"p1", 100⟩, 3⟩]⟩] "a@b.com" =
        some ⟨"a@b.com", [⟨⟨"p1", 100⟩, 3⟩]⟩ ∧
      ([⟨⟨"p1", 100⟩, 3⟩] : List CartItem) ≠ [] ∧
      "Pune" ≠ default_address ∧
      (100 : Int) - cartTotal [⟨⟨"p1", 100⟩, 3⟩] < 0) ∧
    checkout [⟨"a@b.com", [⟨⟨"p1", 100⟩, 3⟩]⟩] ⟨"a@b.com", 100, "Pune"⟩ =
      (Except.error ⟨BAD_REQUEST, "Insufficient balance"⟩,
       ⟨"a@b.com", 100, "Pune"⟩, [⟨"a@b.com", [⟨⟨"p1", 100⟩, 3⟩]⟩]) :=
  ⟨⟨by decide, by decide, by decide, by decide⟩,
    (checkout_insufficient_balance [⟨"a@b.com", [⟨⟨"p1", 100⟩, 3⟩]⟩]
        ⟨"a@b.com", 100, "Pune"⟩ ⟨"a@b.com", [⟨⟨"p1", 100⟩, 3⟩]⟩
        (by decide) (by decide) (by decide)).1 (by decide)⟩

/-- C5: checkout discriminates its precondition failures in order:
no cart at all → `NotFound` (404, "Cart not found"); an existing cart
with zero line items → `InvalidInput` ("No products in cart"), even
when the address is still the default sentinel; a non-empty cart with
the default sentinel address → `InvalidInput` ("No valid address").
In each failing case the user and the store are unchanged. -/
theorem checkout_precondition_order (carts : List Cart) (user : User) :
    (Cart.findOne carts user.email = none →
      checkout carts user =
        (Except.error ⟨NOT_FOUND, "Cart not found"⟩, user, carts)) ∧
    (∀ cart, Cart.findOne carts user.email = some cart →
      cart.cartItems = [] →
      checkout carts user =
        (Except.error ⟨BAD_REQUEST, "No products in cart"⟩, user, carts)) ∧
    (∀ cart, Cart.findOne carts user.email = some cart →
      cart.cartItems ≠ [] → user.address = default_address →
      checkout carts user =
        (Except.error ⟨BAD_REQUEST, "No valid address"⟩, user, carts)) := by
  refine ⟨fun hnone => ?_, fun cart hfind hempty => ?_,
    fun cart hfind hne haddr => ?_⟩
  · simp only [checkout, hnone]
  · simp [checkout, hfind, hempty]
  · have hlen : ¬ cart.cartItems.length = 0 := by
      simpa [List.length_eq_zero] using hne
    have haddr' : user.hasSetNonDefaultAddress = false := by
      simp [User.hasSetNonDefaultAddress, haddr]
    simp [checkout, hfind, haddr', hne]

/-- C5 witness: concrete runs of the three failing checkout branches;
the empty-cart run keeps the default sentinel address, showing the
empty-cart check fires before the address check. -/
theorem checkout_precondition_order_witness :
    checkout [⟨"e@q.com", []⟩] ⟨"e@q.com", 500, "ADDRESS_NOT_SET"⟩ =
      (Except.error ⟨BAD_REQUEST, "No products in cart"⟩,
       ⟨"e@q.com", 500, "ADDRESS_NOT_SET"⟩, [⟨"e@q.com", []⟩]) ∧
    checkout [] ⟨"f@q.com", 500, "Pune"⟩ =
      (Except.error ⟨NOT_FOUND, "Cart not found"⟩,
       ⟨"f@q.com", 500, "Pune"⟩, []) ∧
    checkout [⟨"g@q.com", [⟨⟨"p1", 10⟩, 1⟩]⟩]
        ⟨"g@q.com", 500, "ADDRESS_NOT_SET"⟩ =
      (Except.error ⟨BAD_REQUEST, "No valid address"⟩,
       ⟨"g@q.com", 500, "ADDRESS_NOT_SET"⟩,
       [⟨"g@q.com", [⟨⟨"p1", 10⟩, 1⟩]⟩]) :=
  ⟨(checkout_precondition_order [⟨"e@q.com", []⟩]
      ⟨"e@q.com", 500, "ADDRESS_NOT_SET"⟩).2.1 ⟨"e@q.com", []⟩
      (by decide) rfl,
   (checkout_precondition_order [] ⟨"f@q.com", 500, "Pune"⟩).1 (by decide),
   (checkout_precondition_order [⟨"g@q.com", [⟨⟨"p1", 10⟩, 1⟩]⟩]
      ⟨"g@q.com", 500, "ADDRESS_NOT_SET"⟩).2.2 ⟨"g@q.com", [⟨⟨"p1", 10⟩, 1⟩]⟩
      (by decide) (by decide) rfl⟩

/-- C3 counterexample: with an empty product catalog and no existing
cart, `addProductToCart` for an unknown product id does fail with
`InvalidInput`, but the failed call has created and persisted an empty
cart document for the user — the cart store did not stay unchanged. -/
theorem addProductToCart_unknown_product_creates_cart :
    (addProductToCart [] [] ⟨"a@b.com", 500, "Pune"⟩ "p1" 1).1 =
      Except.error ⟨BAD_REQUEST, "Product doesn't exist in database"⟩ ∧
    (addProductToCart [] [] ⟨"a@b.com", 500, "Pune"⟩ "p1" 1).2 =
      [⟨"a@b.com", []⟩] ∧
    ([⟨"a@b.com", []⟩] : List Cart) ≠ ([] : List Cart) :=
  ⟨rfl, rfl, by decide⟩

/-- C3 amended: for every (user, productId, quantity) where productId
does not resolve to an existing product, `addProductToCart` fails with
`InvalidInput` (a 400 client error); a pre-existing cart is left
unchanged in the store, but if the user had no cart, the failed call
lazily creates and persists an empty cart document for the user. -/
theorem addProductToCart_unknown_product (products : List Product)
    (carts : List Cart) (user : User) (productId : String) (quantity : Int)
    (h : Product.findById products productId = none) :
    (∃ msg, (addProductToCart products carts user productId quantity).1 =
      Except.error ⟨BAD_REQUEST, msg⟩) ∧
    (∀ c, Cart.findOne carts user.email = some c →
      (addProductToCart products carts user productId quantity).2 = carts) ∧
    (Cart.findOne carts user.email = none →
      Cart.findOne (addProductToCart products carts user productId quantity).2
        user.email = some ⟨user.email, []⟩) := by
  rcases hfound : Cart.findOne carts user.email with _ | c
  · refine ⟨⟨"Product doesn't exist in database", ?_⟩, ?_, ?_⟩
    · simp [addProductToCart, hfound, h]
    · intro c hc
      simp at hc
    · intro _
      have h2 : (addProductToCart products carts user productId quantity).2 =
          saveCart carts ⟨user.email, []⟩ := by
        simp [addProductToCart, hfound, h]
      rw [h2]
      exact findOne_saveCart_self carts ⟨user.email, []⟩
  · refine ⟨?_, ?_, ?_⟩
    · by_cases hex :
        c.cartItems.any (fun obj => obj.product.id == productId) = true
      · exact ⟨"Product already in cart. Use the cart sidebar to update or remove product from cart",
          by simp [addProductToCart, hfound, hex]⟩
      · exact ⟨"Product doesn't exist in database",
          by simp [addProductToCart, hfound, h, hex]⟩
    · intro c' _
      by_cases hex :
        c.cartItems.any (fun obj => obj.product.id == productId) = true
      · simp [addProductToCart, hfound, hex]
      · simp [addProductToCart, hfound, h, hex]
    · intro hnone
      simp at hnone

/-- C3 amended witness: concrete runs of the amended claim — a failed
add with an unknown product leaves an existing cart's store unchanged,
and for a user without a cart it persists a fresh empty cart. -/
theorem addProductToCart_unknown_product_witness :
    (Product.findById [] "p1" = none) ∧
    ((∃ msg, (addProductToCart [] [⟨"a@b.com", [⟨⟨"p2", 7⟩, 1⟩]⟩]
        ⟨"a@b.com", 500, "Pune"⟩ "p1" 1).1 =
      Except.error ⟨BAD_REQUEST, msg⟩) ∧
    (∀ c, Cart.findOne [⟨"a@b.com", [⟨⟨"p2", 7⟩, 1⟩]⟩] "a@b.com" = some c →
      (addProductToCart [] [⟨"a@b.com", [⟨⟨"p2", 7⟩, 1⟩]⟩]
        ⟨"a@b.com", 500, "Pune"⟩ "p1" 1).2 =
        [⟨"a@b.com", [⟨⟨"p2", 7⟩, 1⟩]⟩]) ∧
    (Cart.findOne [⟨"a@b.com", [⟨⟨"p2", 7⟩, 1⟩]⟩] "a@b.com" = none →
      Cart.findOne (addProductToCart [] [⟨"a@b.com", [⟨⟨"p2", 7⟩, 1⟩]⟩]
        ⟨"a@b.com", 500, "Pune"⟩ "p1" 1).2 "a@b.com" =
        some ⟨"a@b.com", []⟩)) :=
  ⟨rfl, addProductToCart_unknown_product [] [⟨"a@b.com", [⟨⟨"p2", 7⟩, 1⟩]⟩]
    ⟨"a@b.com", 500, "Pune"⟩ "p1" 1 rfl⟩

/-- C6: if the user's cart already contains (exactly one, per the
uniqueness invariant) line item for productId, a second
`addProductToCart` call for the same product fails with the 400 client
error "Product already in cart..." and leaves the store unchanged, so
the user's cart still holds exactly one line item for that product. -/
theorem addProductToCart_duplicate (products : List Product)
    (carts : List Cart) (user : User) (productId : String) (quantity : Int)
    (cart : Cart)
    (hfind : Cart.findOne carts user.email = some cart)
    (hone : cart.cartItems.countP
      (fun obj => obj.product.id == productId) = 1) :
    addProductToCart products carts user productId quantity =
      (Except.error ⟨BAD_REQUEST,
        "Product already in cart. Use the cart sidebar to update or remove product from cart"⟩,
       carts) ∧
    ∀ c, Cart.findOne
        (addProductToCart products carts user productId quantity).2
        user.email = some c →
      c.cartItems.countP (fun obj => obj.product.id == productId) = 1 := by
  have hex : cart.cartItems.any
      (fun obj => obj.product.id == productId) = true := by
    rw [List.any_eq_true]
    have hpos : 0 < cart.cartItems.countP
        (fun obj => obj.product.id == productId) := by omega
    exact List.countP_pos_iff.mp hpos
  have heq : addProductToCart products carts user productId quantity =
      (Except.error ⟨BAD_REQUEST,
        "Product already in cart. Use the cart sidebar to update or remove product from cart"⟩,
       carts) := by
    simp [addProductToCart, hfind, hex]
  refine ⟨heq, ?_⟩
  intro c hc
  have hc' : Cart.findOne carts user.email = some c := by
    rw [heq] at hc
    exact hc
  have : cart = c := by
    have := hfind.symm.trans hc'
    injection this
  exact this ▸ hone

/-- C6 witness: a cart already holding one line item for "p1"; the
second add for "p1" fails with the duplicate-product 400 error and the
store is unchanged. -/
theorem addProductToCart_duplicate_witness :
    (Cart.findOne [⟨"a@b.com", [⟨⟨"p1", 100⟩, 2⟩]⟩] "a@b.com" =
        some ⟨"a@b.com", [⟨⟨"p1", 100⟩, 2⟩]⟩ ∧
      ([⟨⟨"p1", 100⟩, 2⟩] : List CartItem).countP
        (fun obj => obj.product.id == "p1") = 1) ∧
    addProductToCart [⟨"p1", 100⟩] [⟨"a@b.com", [⟨⟨"p1", 100⟩, 2⟩]⟩]
        ⟨"a@b.com", 500, "Pune"⟩ "p1" 2 =
      (Except.error ⟨BAD_REQUEST,
        "Product already in cart. Use the cart sidebar to update or remove product from cart"⟩,
       [⟨"a@b.com", [⟨⟨"p1", 100⟩, 2⟩]⟩]) :=
  ⟨⟨by decide, by decide⟩,
    (addProductToCart_duplicate [⟨"p1", 100⟩]
      [⟨"a@b.com", [⟨⟨"p1", 100⟩, 2⟩]⟩] ⟨"a@b.com", 500, "Pune"⟩ "p1" 2
      ⟨"a@b.com", [⟨⟨"p1", 100⟩, 2⟩]⟩ (by decide) (by decide)).1⟩

/-- C7: when the cart already holds a line item for productId and the
productId simultaneously does not resolve to a catalog product, the
reported failure is the duplicate-in-cart error and not the
unknown-product error — the "already in cart" check runs first. -/
theorem addProductToCart_duplicate_before_unknown (products : List Product)
    (carts : List Cart) (user : User) (productId : String) (quantity : Int)
    (cart : Cart)
    (hfind : Cart.findOne carts user.email = some cart)
    (hex : cart.cartItems.any (fun obj => obj.product.id == productId) = true)
    (_hprod : Product.findById products productId = none) :
    (addProductToCart products carts user productId quantity).1 =
      Except.error ⟨BAD_REQUEST,
        "Product already in cart. Use the cart sidebar to update or remove product from cart"⟩ ∧
    (addProductToCart products carts user productId quantity).1 ≠
      Except.error ⟨BAD_REQUEST, "Product doesn't exist in database"⟩ := by
  have h1 : (addProductToCart products carts user productId quantity).1 =
      Except.error ⟨BAD_REQUEST,
        "Product already in cart. Use the cart sidebar to update or remove product from cart"⟩ := by
    simp [addProductToCart, hfind, hex]
  refine ⟨h1, ?_⟩
  rw [h1]
  simp only [ne_eq, Except.error.injEq, ApiError.mk.injEq]
  intro hcontra
  exact absurd hcontra.2 (by decide)

/-- C7 witness: the cart holds a (stale) line item for "p1" while the
catalog no longer has "p1"; the add fails with the duplicate error. -/
theorem addProductToCart_duplicate_before_unknown_witness :
    (Cart.findOne [⟨"a@b.com", [⟨⟨"p1", 100⟩, 2⟩]⟩] "a@b.com" =
        some ⟨"a@b.com", [⟨⟨"p1", 100⟩, 2⟩]⟩ ∧
      ([⟨⟨"p1", 100⟩, 2⟩] : List CartItem).any
        (fun obj => obj.product.id == "p1") = true ∧
      Product.findById [] "p1" = none) ∧
    ((addProductToCart [] [⟨"a@b.com", [⟨⟨"p1", 100⟩, 2⟩]⟩]
        ⟨"a@b.com", 500, "Pune"⟩ "p1" 1).1 =
      Except.error ⟨BAD_REQUEST,
        "Product already in cart. Use the cart sidebar to update or remove product from cart"⟩ ∧
    (addProductToCart [] [⟨"a@b.com", [⟨⟨"p1", 100⟩, 2⟩]⟩]
        ⟨"a@b.com", 500, "Pune"⟩ "p1" 1).1 ≠
      Except.error ⟨BAD_REQUEST, "Product doesn't exist in database"⟩) :=
  ⟨⟨by decide, by decide, rfl⟩,
    addProductToCart_duplicate_before_unknown []
      [⟨"a@b.com", [⟨⟨"p1", 100⟩, 2⟩]⟩] ⟨"a@b.com", 500, "Pune"⟩ "p1" 1
      ⟨"a@b.com", [⟨⟨"p1", 100⟩, 2⟩]⟩ (by decide) (by decide) rfl⟩

/-- C8: for a cart containing (exactly one, per the uniqueness
invariant) line item for productId, with productId resolving to a
catalog product, `updateProductInCart` succeeds for every provided
quantity (no validity constraint on it), overwrites exactly that line
item's quantity with the provided value, and leaves every other line
item (product, quantity, position) and the cart's email unchanged. -/
theorem updateProductInCart_updates_only_target (products : List Product)
    (carts : List Cart) (user : User) (productId : String) (quantity : Int)
    (cart : Cart) (p : Product)
    (hfind : Cart.findOne carts user.email = some cart)
    (hprod : Product.findById products productId = some p)
    (hone : cart.cartItems.countP
      (fun obj => obj.product.id == productId) = 1) :
    ∃ cart2, (updateProductInCart products carts user productId quantity).1 =
        Except.ok cart2 ∧
      cart2.email = cart.email ∧
      cart2.cartItems.length = cart.cartItems.length ∧
      ∀ i (h1 : i < cart.cartItems.length) (h2 : i < cart2.cartItems.length),
        ((cart.cartItems.get ⟨i, h1⟩).product.id ≠ productId →
          cart2.cartItems.get ⟨i, h2⟩ = cart.cartItems.get ⟨i, h1⟩) ∧
        ((cart.cartItems.get ⟨i, h1⟩).product.id = productId →
          cart2.cartItems.get ⟨i, h2⟩ =
            ⟨(cart.cartItems.get ⟨i, h1⟩).product, quantity⟩) := by
  have hex : cart.cartItems.any
      (fun obj => obj.product.id == productId) = true := by
    rw [List.any_eq_true]
    exact List.countP_pos_iff.mp (by omega)
  refine ⟨⟨cart.email, cart.cartItems.map (fun obj =>
      if obj.product.id == productId then ⟨obj.product, quantity⟩ else obj)⟩,
    ?_, rfl, by simp, ?_⟩
  · simp [updateProductInCart, hfind, hprod, hex]
  · intro i h1 h2
    constructor
    · intro hne
      simp only [List.get_eq_getElem, List.getElem_map]
      rw [if_neg (by simpa using hne)]
    · intro heq
      simp only [List.get_eq_getElem, List.getElem_map]
      rw [if_pos (by simpa using heq)]

/-- C8 witness: a two-item cart; updating "p1" to quantity 0 (checking
that no positivity constraint is imposed) succeeds and touches only the
"p1" line item. -/
theorem updateProductInCart_updates_only_target_witness :
    (Cart.findOne [⟨"a@b.com", [⟨⟨"p1", 100⟩, 2⟩, ⟨⟨"p2", 50⟩, 5⟩]⟩]
        "a@b.com" = some ⟨"a@b.com", [⟨⟨"p1", 100⟩, 2⟩, ⟨⟨"p2", 50⟩, 5⟩]⟩ ∧
      Product.findById [⟨"p1", 100⟩] "p1" = some ⟨"p1", 100⟩ ∧
      ([⟨⟨"p1", 100⟩, 2⟩, ⟨⟨"p2", 50⟩, 5⟩] : List CartItem).countP
        (fun obj => obj.product.id == "p1") = 1) ∧
    (∃ cart2, (updateProductInCart [⟨"p1", 100⟩]
        [⟨"a@b.com", [⟨⟨"p1", 100⟩, 2⟩, ⟨⟨"p2", 50⟩, 5⟩]⟩]
        ⟨"a@b.com", 500, "Pune"⟩ "p1" 0).1 = Except.ok cart2 ∧
      cart2.email = "a@b.com" ∧
      cart2.cartItems.length =
        ([⟨⟨"p1", 100⟩, 2⟩, ⟨⟨"p2", 50⟩, 5⟩] : List CartItem).length ∧
      ∀ i (h1 : i < ([⟨⟨"p1", 100⟩, 2⟩, ⟨⟨"p2", 50⟩, 5⟩] :
            List CartItem).length)
          (h2 : i < cart2.cartItems.length),
        ((([⟨⟨"p1", 100⟩, 2⟩, ⟨⟨"p2", 50⟩, 5⟩] :
              List CartItem).get ⟨i, h1⟩).product.id ≠ "p1" →
          cart2.cartItems.get ⟨i, h2⟩ =
            ([⟨⟨"p1", 100⟩, 2⟩, ⟨⟨"p2", 50⟩, 5⟩] :
              List CartItem).get ⟨i, h1⟩) ∧
        ((([⟨⟨"p1", 100⟩, 2⟩, ⟨⟨"p2", 50⟩, 5⟩] :
              List CartItem).get ⟨i, h1⟩).product.id = "p1" →
          cart2.cartItems.get ⟨i, h2⟩ =
            ⟨(([⟨⟨"p1", 100⟩, 2⟩, ⟨⟨"p2", 50⟩, 5⟩] :
              List CartItem).get ⟨i, h1⟩).product, 0⟩)) :=
  ⟨⟨by decide, by decide, by decide⟩,
    updateProductInCart_updates_only_target [⟨"p1", 100⟩]
      [⟨"a@b.com", [⟨⟨"p1", 100⟩, 2⟩, ⟨⟨"p2", 50⟩, 5⟩]⟩]
      ⟨"a@b.com", 500, "Pune"⟩ "p1" 0
      ⟨"a@b.com", [⟨⟨"p1", 100⟩, 2⟩, ⟨⟨"p2", 50⟩, 5⟩]⟩ ⟨"p1", 100⟩
      (by decide) (by decide) (by decide)⟩

/-- When no line item matches, the delete scan leaves its accumulator
untouched (so `exists` stays false and `pos` stays 0). -/
lemma deleteScanAux_no_match (productId : String) :
    ∀ (items : List CartItem) (idx : Nat) (acc : Bool × Nat),
      items.countP (fun obj => obj.product.id == productId) = 0 →
      deleteScanAux productId items idx acc = acc
  | [], _, _, _ => rfl
  | obj :: rest, idx, acc, h => by
      have hall := List.countP_eq_zero.mp h
      have hobj : ¬ (obj.product.id == productId) = true :=
        hall obj (by simp)
      have hrest : rest.countP (fun o => o.product.id == productId) = 0 := by
        rw [List.countP_eq_zero]
        intro a ha
        exact hall a (by simp [ha])
      simp only [deleteScanAux]
      rw [if_neg hobj]
      exact deleteScanAux_no_match productId rest (idx + 1) acc hrest

/-- When exactly one line item matches, the delete scan reports `true`
together with the offset of that item from the start index, and
erasing at that offset is the same as filtering the match out (so the
other items keep their relative order). -/
lemma deleteScanAux_unique (productId : String) :
    ∀ (items : List CartItem) (idx : Nat) (acc : Bool × Nat),
      items.countP (fun obj => obj.product.id == productId) = 1 →
      ∃ j, j < items.length ∧
        deleteScanAux productId items idx acc = (true, idx + j) ∧
        items.eraseIdx j =
          items.filter (fun obj => !(obj.product.id == productId))
  | [], _, _, h => by simp at h
  | obj :: rest, idx, acc, h => by
      by_cases hobj : (obj.product.id == productId) = true
      · have hrest : rest.countP (fun o => o.product.id == productId) = 0 := by
          rw [List.countP_cons, if_pos hobj] at h
          omega
        refine ⟨0, by simp, ?_, ?_⟩
        · simp only [deleteScanAux]
          rw [if_pos hobj,
            deleteScanAux_no_match productId rest (idx + 1) (true, idx) hrest]
          rw [Nat.add_zero]
        · rw [List.eraseIdx_cons_zero, List.filter_cons_of_neg (by simp [hobj])]
          exact (List.filter_eq_self.mpr fun a ha => by
            simp [List.countP_eq_zero.mp hrest a ha]).symm
      · have hrest : rest.countP (fun o => o.product.id == productId) = 1 := by
          rw [List.countP_cons, if_neg hobj] at h
          omega
        obtain ⟨j, hj, hscan, herase⟩ :=
          deleteScanAux_unique productId rest (idx + 1) acc hrest
        refine ⟨j + 1, by simpa using hj, ?_, ?_⟩
        · simp only [deleteScanAux]
          rw [if_neg hobj, hscan]
          congr 1
          omega
        · rw [List.eraseIdx_cons_succ, herase,
            List.filter_cons_of_pos (by simp [hobj])]

/-- C9: `deleteProductFromCart` — with no cart it fails with 400 "User
does not have a cart" and the store is unchanged; with a cart lacking
any line item for productId it fails with 400 "Product not in cart"
and the store is unchanged; with a cart holding exactly one line item
for productId (the uniqueness invariant) it succeeds and the persisted
cart is the old cart with exactly that line item removed, the
remaining items keeping their relative order (a `filter`). -/
theorem deleteProductFromCart_spec (carts : List Cart) (user : User)
    (productId : String) :
    (Cart.findOne carts user.email = none →
      deleteProductFromCart carts user productId =
        (Except.error ⟨BAD_REQUEST, "User does not have a cart"⟩, carts)) ∧
    (∀ cart, Cart.findOne carts user.email = some cart →
      cart.cartItems.countP (fun obj => obj.product.id == productId) = 0 →
      deleteProductFromCart carts user productId =
        (Except.error ⟨BAD_REQUEST, "Product not in cart"⟩, carts)) ∧
    (∀ cart, Cart.findOne carts user.email = some cart →
      cart.cartItems.countP (fun obj => obj.product.id == productId) = 1 →
      (deleteProductFromCart carts user productId).1 = Except.ok () ∧
      Cart.findOne (deleteProductFromCart carts user productId).2
          user.email =
        some ⟨user.email, cart.cartItems.filter
          (fun obj => !(obj.product.id == productId))⟩) := by
  refine ⟨fun hnone => ?_, fun cart hfind h0 => ?_, fun cart hfind h1 => ?_⟩
  · simp [deleteProductFromCart, hnone]
  · have hscan : deleteScan cart.cartItems productId = (false, 0) :=
      deleteScanAux_no_match productId cart.cartItems 0 (false, 0) h0
    simp [deleteProductFromCart, hfind, hscan]
  · obtain ⟨j, hj, hscan, herase⟩ :=
      deleteScanAux_unique productId cart.cartItems 0 (false, 0) h1
    have hscan' : deleteScan cart.cartItems productId = (true, j) := by
      rw [deleteScan, hscan, Nat.zero_add]
    have hemail : cart.email = user.email := Cart.findOne_email hfind
    constructor
    · simp [deleteProductFromCart, hfind, hscan']
    · have h2 : (deleteProductFromCart carts user productId).2 =
          saveCart carts ⟨cart.email, cart.cartItems.eraseIdx j⟩ := by
        simp [deleteProductFromCart, hfind, hscan']
      rw [h2, herase, ← hemail]
      exact findOne_saveCart_self carts
        ⟨cart.email, cart.cartItems.filter
          (fun obj => !(obj.product.id == productId))⟩

/-- C9 witness: deleting "p2" from a three-item cart succeeds; the
persisted cart keeps "p1" and "p3" in their original order. -/
theorem deleteProductFromCart_spec_witness :
    (Cart.findOne
        [⟨"a@b.com", [⟨⟨"p1", 10⟩, 1⟩, ⟨⟨"p2", 20⟩, 2⟩, ⟨⟨"p3", 30⟩, 3⟩]⟩]
        "a@b.com" =
      some ⟨"a@b.com", [⟨⟨"p1", 10⟩, 1⟩, ⟨⟨"p2", 20⟩, 2⟩, ⟨⟨"p3", 30⟩, 3⟩]⟩ ∧
      ([⟨⟨"p1", 10⟩, 1⟩, ⟨⟨"p2", 20⟩, 2⟩, ⟨⟨"p3", 30⟩, 3⟩] :
          List CartItem).countP (fun obj => obj.product.id == "p2") = 1) ∧
    ((deleteProductFromCart
        [⟨"a@b.com", [⟨⟨"p1", 10⟩, 1⟩, ⟨⟨"p2", 20⟩, 2⟩, ⟨⟨"p3", 30⟩, 3⟩]⟩]
        ⟨"a@b.com", 500, "Pune"⟩ "p2").1 = Except.ok () ∧
      Cart.findOne (deleteProductFromCart
          [⟨"a@b.com", [⟨⟨"p1", 10⟩, 1⟩, ⟨⟨"p2", 20⟩, 2⟩, ⟨⟨"p3", 30⟩, 3⟩]⟩]
          ⟨"a@b.com", 500, "Pune"⟩ "p2").2 "a@b.com" =
        some ⟨"a@b.com",
          ([⟨⟨"p1", 10⟩, 1⟩, ⟨⟨"p2", 20⟩, 2⟩, ⟨⟨"p3", 30⟩, 3⟩] :
            List CartItem).filter (fun obj => !(obj.product.id == "p2"))⟩) :=
  ⟨⟨by decide, by decide⟩,
    (deleteProductFromCart_spec
        [⟨"a@b.com", [⟨⟨"p1", 10⟩, 1⟩, ⟨⟨"p2", 20⟩, 2⟩, ⟨⟨"p3", 30⟩, 3⟩]⟩]
        ⟨"a@b.com", 500, "Pune"⟩ "p2").2.2
      ⟨"a@b.com", [⟨⟨"p1", 10⟩, 1⟩, ⟨⟨"p2", 20⟩, 2⟩, ⟨⟨"p3", 30⟩, 3⟩]⟩
      (by decide) (by decide)⟩

/-- The Cart data-model invariant: at most one line item per distinct
product id (the line items' product ids are pairwise distinct). -/
def uniqueProductIds (items : List CartItem) : Prop :=
  items.Pairwise (fun a b => a.product.id ≠ b.product.id)

instance (items : List CartItem) : Decidable (uniqueProductIds items) := by
  unfold uniqueProductIds
  infer_instance

/-- Appending a line item whose product id is not yet in the list
preserves line-item uniqueness. -/
lemma uniqueProductIds_append {items : List CartItem} {pid : String}
    {p : Product} {q : Int} (hu : uniqueProductIds items)
    (hnot : items.any (fun obj => obj.product.id == pid) = false)
    (hp : p.id = pid) :
    uniqueProductIds (items ++ [⟨p, q⟩]) := by
  rw [uniqueProductIds, List.pairwise_append]
  refine ⟨hu, by simp, ?_⟩
  intro a ha b hb
  have hb' : b = ⟨p, q⟩ := by simpa using hb
  subst hb'
  have hne := List.any_eq_false.mp hnot a ha
  simp only []
  rw [hp]
  simpa using hne

/-- Overwriting quantities (the update `forEach`) does not change any
product id, so it preserves line-item uniqueness. -/
lemma uniqueProductIds_map_quantity {items : List CartItem}
    (hu : uniqueProductIds items) (pid : String) (q : Int) :
    uniqueProductIds (items.map (fun obj =>
      if obj.product.id == pid then { obj with quantity := q }
      else obj)) := by
  refine List.Pairwise.map _ ?_ hu
  intro a b hab
  by_cases h1 : (a.product.id == pid) = true <;>
    by_cases h2 : (b.product.id == pid) = true <;>
    simp [h1, h2] <;> exact hab

/-- Removing a line item (the delete splice) preserves uniqueness. -/
lemma uniqueProductIds_eraseIdx {items : List CartItem} (i : Nat)
    (hu : uniqueProductIds items) :
    uniqueProductIds (items.eraseIdx i) :=
  List.Pairwise.sublist (List.eraseIdx_sublist items i) hu

/-- If every cart in a store satisfies the invariant and the saved cart
does, every cart in the store after the save does. -/
lemma storeUnique_saveCart {carts : List Cart} {cart : Cart}
    (hinv : ∀ c ∈ carts, uniqueProductIds c.cartItems)
    (hc : uniqueProductIds cart.cartItems) :
    ∀ c ∈ saveCart carts cart, uniqueProductIds c.cartItems := by
  intro c hmem
  rcases mem_saveCart hmem with h | rfl
  · exact hinv c h
  · exact hc

/-- C10: line-item uniqueness (at most one line item per distinct
product id) is an invariant of the store: if every cart in the store
satisfies it, then after `addProductToCart`, `updateProductInCart`,
`deleteProductFromCart` and `checkout` — whether the operation
succeeded or failed — every cart in the resulting store still
satisfies it. -/
theorem cart_ops_preserve_uniqueProductIds (products : List Product)
    (carts : List Cart) (user : User) (productId : String) (quantity : Int)
    (hinv : ∀ c ∈ carts, uniqueProductIds c.cartItems) :
    (∀ c ∈ (addProductToCart products carts user productId quantity).2,
      uniqueProductIds c.cartItems) ∧
    (∀ c ∈ (updateProductInCart products carts user productId quantity).2,
      uniqueProductIds c.cartItems) ∧
    (∀ c ∈ (deleteProductFromCart carts user productId).2,
      uniqueProductIds c.cartItems) ∧
    (∀ c ∈ (checkout carts user).2.2,
      uniqueProductIds c.cartItems) := by
  refine ⟨?_, ?_, ?_, ?_⟩
  · rcases hfound : Cart.findOne carts user.email with _ | c
    · rcases hprod : Product.findById products productId with _ | p
      · have h2 : (addProductToCart products carts user productId quantity).2 =
            saveCart carts ⟨user.email, []⟩ := by
          simp [addProductToCart, hfound, hprod]
        rw [h2]
        exact storeUnique_saveCart hinv (by simp [uniqueProductIds])
      · have h2 : (addProductToCart products carts user productId quantity).2 =
            saveCart (saveCart carts ⟨user.email, []⟩)
              ⟨user.email, [⟨p, quantity⟩]⟩ := by
          simp [addProductToCart, hfound, hprod]
        rw [h2]
        exact storeUnique_saveCart
          (storeUnique_saveCart hinv (by simp [uniqueProductIds]))
          (by simp [uniqueProductIds])
    · have hmem : c ∈ carts := by
        simp only [Cart.findOne] at hfound
        exact List.mem_of_find?_eq_some hfound
      by_cases hex :
        c.cartItems.any (fun obj => obj.product.id == productId) = true
      · have h2 : (addProductToCart products carts user productId quantity).2 =
            carts := by
          simp [addProductToCart, hfound, hex]
        rw [h2]
        exact hinv
      · rcases hprod : Product.findById products productId with _ | p
        · have h2 : (addProductToCart products carts user productId
              quantity).2 = carts := by
            simp [addProductToCart, hfound, hex, hprod]
          rw [h2]
          exact hinv
        · have hpid : p.id = productId := Product.findById_id hprod
          have h2 : (addProductToCart products carts user productId
                quantity).2 =
              saveCart carts ⟨c.email, c.cartItems ++ [⟨p, quantity⟩]⟩ := by
            simp [addProductToCart, hfound, hex, hprod]
          rw [h2]
          exact storeUnique_saveCart hinv
            (uniqueProductIds_append (hinv c hmem)
              (by simpa using hex) hpid)
  · rcases hfound : Cart.findOne carts user.email with _ | c
    · have h2 : (updateProductInCart products carts user productId
          quantity).2 = carts := by
        simp [updateProductInCart, hfound]
      rw [h2]
      exact hinv
    · have hmem : c ∈ carts := by
        simp only [Cart.findOne] at hfound
        exact List.mem_of_find?_eq_some hfound
      rcases hprod : Product.findById products productId with _ | p
      · have h2 : (updateProductInCart products carts user productId
            quantity).2 = carts := by
          simp [updateProductInCart, hfound, hprod]
        rw [h2]
        exact hinv
      · by_cases hex :
          c.cartItems.any (fun obj => obj.product.id == productId) = true
        · have h2 : (updateProductInCart products carts user productId
              quantity).2 =
              saveCart carts ⟨c.email, c.cartItems.map (fun obj =>
                if obj.product.id == productId then
                  { obj with quantity := quantity }
                else obj)⟩ := by
            simp [updateProductInCart, hfound, hprod, hex]
          rw [h2]
          exact storeUnique_saveCart hinv
            (uniqueProductIds_map_quantity (hinv c hmem) productId quantity)
        · have h2 : (updateProductInCart products carts user productId
              quantity).2 = carts := by
            simp [updateProductInCart, hfound, hprod, hex]
          rw [h2]
          exact hinv
  · rcases hfound : Cart.findOne carts user.email with _ | c
    · have h2 : (deleteProductFromCart carts user productId).2 = carts := by
        simp [deleteProductFromCart, hfound]
      rw [h2]
      exact hinv
    · have hmem : c ∈ carts := by
        simp only [Cart.findOne] at hfound
        exact List.mem_of_find?_eq_some hfound
      by_cases hs : (deleteScan c.cartItems productId).1 = false
      · have h2 : (deleteProductFromCart carts user productId).2 = carts := by
          simp [deleteProductFromCart, hfound, hs]
        rw [h2]
        exact hinv
      · have h2 : (deleteProductFromCart carts user productId).2 =
            saveCart carts ⟨c.email,
              c.cartItems.eraseIdx (deleteScan c.cartItems productId).2⟩ := by
          simp [deleteProductFromCart, hfound, hs]
        rw [h2]
        exact storeUnique_saveCart hinv
          (uniqueProductIds_eraseIdx _ (hinv c hmem))
  · rcases hfound : Cart.findOne carts user.email with _ | c
    · have h2 : (checkout carts user).2.2 = carts := by
        simp [checkout, hfound]
      rw [h2]
      exact hinv
    · by_cases h0 : c.cartItems.length = 0
      · have h2 : (checkout carts user).2.2 = carts := by
          simp [checkout, hfound, h0]
        rw [h2]
        exact hinv
      · by_cases haddr : user.hasSetNonDefaultAddress = true
        · by_cases hneg : user.walletMoney - cartTotal c.cartItems < 0
          · have h2 : (checkout carts user).2.2 = carts := by
              simp [checkout, hfound, h0, haddr, hneg]
            rw [h2]
            exact hinv
          · have h2 : (checkout carts user).2.2 =
                saveCart carts ⟨c.email, []⟩ := by
              simp [checkout, hfound, h0, haddr, hneg]
            rw [h2]
            exact storeUnique_saveCart hinv (by simp [uniqueProductIds])
        · have h2 : (checkout carts user).2.2 = carts := by
            simp [checkout, hfound, h0, haddr]
          rw [h2]
          exact hinv

/-- C10 witness: a store with one two-item cart (distinct product ids);
all four operations, run for product "p1", preserve the at-most-one
line-item-per-product-id invariant for every cart in the store. -/
theorem cart_ops_preserve_uniqueProductIds_witness :
    (∀ c ∈ ([⟨"a@b.com", [⟨⟨"p2", 5⟩, 1⟩, ⟨⟨"p3", 9⟩, 4⟩]⟩] : List Cart),
      uniqueProductIds c.cartItems) ∧
    ((∀ c ∈ (addProductToCart [⟨"p1", 100⟩]
        [⟨"a@b.com", [⟨⟨"p2", 5⟩, 1⟩, ⟨⟨"p3", 9⟩, 4⟩]⟩]
        ⟨"a@b.com", 500, "Pune"⟩ "p1" 2).2,
      uniqueProductIds c.cartItems) ∧
    (∀ c ∈ (updateProductInCart [⟨"p1", 100⟩]
        [⟨"a@b.com", [⟨⟨"p2", 5⟩, 1⟩, ⟨⟨"p3", 9⟩, 4⟩]⟩]
        ⟨"a@b.com", 500, "Pune"⟩ "p1" 2).2,
      uniqueProductIds c.cartItems) ∧
    (∀ c ∈ (deleteProductFromCart
        [⟨"a@b.com", [⟨⟨"p2", 5⟩, 1⟩, ⟨⟨"p3", 9⟩, 4⟩]⟩]
        ⟨"a@b.com", 500, "Pune"⟩ "p1").2,
      uniqueProductIds c.cartItems) ∧
    (∀ c ∈ (checkout [⟨"a@b.com", [⟨⟨"p2", 5⟩, 1⟩, ⟨⟨"p3", 9⟩, 4⟩]⟩]
        ⟨"a@b.com", 500, "Pune"⟩).2.2,
      uniqueProductIds c.cartItems)) :=
  ⟨by decide,
    cart_ops_preserve_uniqueProductIds [⟨"p1", 100⟩]
      [⟨"a@b.com", [⟨⟨"p2", 5⟩, 1⟩, ⟨⟨"p3", 9⟩, 4⟩]⟩]
      ⟨"a@b.com", 500, "Pune"⟩ "p1" 2 (by decide)⟩
